import Mathlib

/-!
Verification model of the `mhpenta/imagegen` repository's rate-limiting and
dispatch core (package `ratelimiter` and package `imagegen`).

Conventions of the shallow embedding:

* Go `time.Time` / `time.Duration` are modelled as `Int` nanosecond counts;
  each operation that reads `time.Now()` takes an explicit `now : Int`.
* Go `int` is modelled as `Int` (overflow is immaterial to the claims).
* Go integer division and Go's `int(float64)` conversion truncate toward
  zero, so they are modelled with `Int.tdiv`.  The two floating-point
  formulas of the source (`TokenBucket.TimeUntilAvailable` / `Wait`,
  `SimpleTokenEstimator.EstimateTokens`) are modelled by the exactly
  corresponding integer expressions; every concrete instance used in a
  theorem below is one on which the `float64` computation is exact.
* Methods that mutate a bucket return a `result × TokenBucket` pair; methods
  whose Go bodies contain no field writes return the receiver unchanged in
  the second component, mirroring the absence of writes in the source.
-/

/-- `ratelimiter.TokenBucket` (src/unnamed/part_003 lines 156-163); the mutex
is irrelevant to the sequential model. -/
structure TokenBucket where
  capacity : Int
  remaining : Int
  refillInterval : Int
  lastRefill : Int
deriving DecidableEq, Repr

/-- `ratelimiter.NewTokenBucket` (part_003 lines 165-173); `now` stands for
the `time.Now()` call that initializes `lastRefill`. -/
def NewTokenBucket (capacity initialTokens refillInterval now : Int) : TokenBucket :=
  { capacity := capacity
    remaining := initialTokens
    refillInterval := refillInterval
    lastRefill := now }

/-- The refill-if-due step shared by `HasCapacity` and `Consume`
(part_003 lines 179-183 and 196-200): a full elapsed interval snaps
`remaining` to `capacity` and resets `lastRefill`. -/
def TokenBucket.refillIfDue (tb : TokenBucket) (now : Int) : TokenBucket :=
  if now - tb.lastRefill ≥ tb.refillInterval then
    { tb with remaining := tb.capacity, lastRefill := now }
  else
    tb

/-- `TokenBucket.Consume` (part_003 lines 192-206). -/
def TokenBucket.Consume (tb : TokenBucket) (tokens now : Int) : Bool × TokenBucket :=
  let tb1 := tb.refillIfDue now
  if tokens ≤ tb1.remaining then
    (true, { tb1 with remaining := tb1.remaining - tokens })
  else
    (false, tb1)

/-- `TokenBucket.TryConsume` (part_003 lines 187-190): same as `Consume`. -/
def TokenBucket.TryConsume (tb : TokenBucket) (tokens now : Int) : Bool × TokenBucket :=
  tb.Consume tokens now

/-- `TokenBucket.HasCapacity` (part_003 lines 175-185): read-only check; the
body writes no fields, so the state comes back unchanged. -/
def TokenBucket.HasCapacity (tb : TokenBucket) (tokens now : Int) : Bool × TokenBucket :=
  let remaining := if now - tb.lastRefill ≥ tb.refillInterval then tb.capacity else tb.remaining
  (tokens ≤ remaining, tb)

/-- The effective remaining after a partial linear refill, as computed (but
not committed) by `TokenBucket.TimeUntilAvailable` (part_003 lines 262-272):
full interval elapsed counts as full capacity, a strictly positive partial
elapse adds `capacity * elapsed / interval` tokens capped at capacity. -/
def TokenBucket.effectiveRemaining (tb : TokenBucket) (now : Int) : Int :=
  let elapsed := now - tb.lastRefill
  if elapsed ≥ tb.refillInterval then
    tb.capacity
  else if elapsed > 0 then
    min tb.capacity (tb.remaining + Int.tdiv (tb.capacity * elapsed) tb.refillInterval)
  else
    tb.remaining

/-- `TokenBucket.TimeUntilAvailable` (part_003 lines 257-288): read-only;
returns 0 if satisfiable from the effective remaining, else the shortfall
divided by the refill rate (`needed * interval / capacity`, truncated) plus
a 10% buffer (`waitDuration / 10`, truncated).  The Go source computes the
quotient in `float64` and truncates via `time.Duration(...)`; `Int.tdiv`
is the integer idealization of that, exact on every instance used below.
The source body writes no fields, so the state comes back unchanged. -/
def TokenBucket.TimeUntilAvailable (tb : TokenBucket) (tokens now : Int) : Int × TokenBucket :=
  let effectiveRemaining := tb.effectiveRemaining now
  if tokens ≤ effectiveRemaining then
    (0, tb)
  else
    let tokensNeeded := tokens - effectiveRemaining
    let waitDuration := Int.tdiv (tokensNeeded * tb.refillInterval) tb.capacity
    (waitDuration + Int.tdiv waitDuration 10, tb)

/-- `TokenBucket.Wait` (part_003 lines 294-329): same formula as
`TimeUntilAvailable`, but the (full or partial) refill is committed into the
bucket state, with `lastRefill` advanced to `now`. -/
def TokenBucket.Wait (tb : TokenBucket) (tokens now : Int) : Int × TokenBucket :=
  let elapsed := now - tb.lastRefill
  let tb1 :=
    if elapsed ≥ tb.refillInterval then
      { tb with remaining := tb.capacity, lastRefill := now }
    else if elapsed > 0 then
      { tb with
          remaining := min tb.capacity (tb.remaining + Int.tdiv (tb.capacity * elapsed) tb.refillInterval)
          lastRefill := now }
    else
      tb
  if tokens ≤ tb1.remaining then
    (0, tb1)
  else
    let tokensNeeded := tokens - tb1.remaining
    let waitDuration := Int.tdiv (tokensNeeded * tb.refillInterval) tb.capacity
    (waitDuration + Int.tdiv waitDuration 10, tb1)

/-- `time.Minute` in nanoseconds, the refill interval used by `NewLimiter`
and `NewFromLimits` (part_003 lines 128, 340). -/
def timeMinute : Int := 60000000000

/-- `ratelimiter.RateLimiter` (part_003 lines 107-110): a composite of a
token-count bucket and a request-count bucket. -/
structure RateLimiter where
  TokensBucket : TokenBucket
  RequestsBucket : TokenBucket
deriving DecidableEq, Repr

/-- `ratelimiter.RateLimitConfig` (part_003 lines 117-123); the fields unused
by the implementation are omitted. -/
structure RateLimitConfig where
  TokensPerMinute : Int
  RequestsPerMinute : Int
deriving DecidableEq, Repr

/-- `ratelimiter.NewLimiter` (part_003 lines 126-133): both buckets start
full (initial = capacity) with a one-minute refill interval. -/
def NewLimiter (config : RateLimitConfig) (now : Int) : RateLimiter :=
  { TokensBucket := NewTokenBucket config.TokensPerMinute config.TokensPerMinute timeMinute now
    RequestsBucket := NewTokenBucket config.RequestsPerMinute config.RequestsPerMinute timeMinute now }

/-- `RateLimiter.TryConsume` (part_003 lines 141-143):
`rl.TokensBucket.TryConsume(numTokens) && rl.RequestsBucket.TryConsume(1)`,
with Go's short-circuit `&&`: the request bucket is only touched when the
token-bucket consume succeeded. -/
def RateLimiter.TryConsume (rl : RateLimiter) (numTokens now : Int) : Bool × RateLimiter :=
  let t := rl.TokensBucket.TryConsume numTokens now
  if t.1 then
    let r := rl.RequestsBucket.TryConsume 1 now
    (r.1, { TokensBucket := t.2, RequestsBucket := r.2 })
  else
    (false, { TokensBucket := t.2, RequestsBucket := rl.RequestsBucket })

/-- `RateLimiter.HasCapacity` (part_003 lines 136-138). -/
def RateLimiter.HasCapacity (rl : RateLimiter) (numTokens now : Int) : Bool × RateLimiter :=
  ((rl.TokensBucket.HasCapacity numTokens now).1 && (rl.RequestsBucket.HasCapacity 1 now).1, rl)

/-- `RateLimiter.CanProceed` (part_003 lines 147-149): alias of `TryConsume`. -/
def RateLimiter.CanProceed (rl : RateLimiter) (numTokens now : Int) : Bool × RateLimiter :=
  rl.TryConsume numTokens now

/-- `RateLimiter.TimeUntilAvailable` (part_003 lines 215-222): the larger of
the two buckets' estimates; read-only. -/
def RateLimiter.TimeUntilAvailable (rl : RateLimiter) (tokens now : Int) : Int × RateLimiter :=
  let tokenWait := (rl.TokensBucket.TimeUntilAvailable tokens now).1
  let requestWait := (rl.RequestsBucket.TimeUntilAvailable 1 now).1
  (if tokenWait > requestWait then tokenWait else requestWait, rl)

/-- Outcome tag for `RateLimiter.WaitAndConsume`: success, the wait-exceeded
error, the caller context's cancellation error during the sleep, and the
"failed to acquire tokens after waiting" internal-consistency error. -/
inductive WaitOutcome where
  | ok
  | waitExceeded
  | ctxCancelled
  | consumeFailed
deriving DecidableEq, Repr

/-- Result of `RateLimiter.WaitAndConsume`: the outcome, the duration
actually slept (the timer's duration, or the point of cancellation), and the
limiter state afterwards. -/
structure WaitResult where
  outcome : WaitOutcome
  slept : Int
  limiter : RateLimiter
deriving DecidableEq, Repr

/-- `RateLimiter.WaitAndConsume` (part_003 lines 227-255).  The sleep is
modelled by advancing `now` by the computed wait; the caller's context is
modelled by `cancelAfter`: `some t` means the context's done-channel fires
`t` nanoseconds into the sleep, and wins the `select` when `t` is below the
timer duration.  When the computed wait is zero the source skips the
timer/select entirely, so the context is not consulted. -/
def RateLimiter.WaitAndConsume (rl : RateLimiter) (now tokens maxWait : Int)
    (cancelAfter : Option Int) : WaitResult :=
  let waitDuration := (rl.TimeUntilAvailable tokens now).1
  if waitDuration > 0 then
    if maxWait > 0 ∧ waitDuration > maxWait then
      { outcome := .waitExceeded, slept := 0, limiter := rl }
    else
      match cancelAfter with
      | some t =>
          if t < waitDuration then
            { outcome := .ctxCancelled, slept := t, limiter := rl }
          else
            let c := rl.CanProceed tokens (now + waitDuration)
            { outcome := if c.1 then .ok else .consumeFailed
              slept := waitDuration, limiter := c.2 }
      | none =>
          let c := rl.CanProceed tokens (now + waitDuration)
          { outcome := if c.1 then .ok else .consumeFailed
            slept := waitDuration, limiter := c.2 }
  else
    let c := rl.CanProceed tokens now
    { outcome := if c.1 then .ok else .consumeFailed
      slept := 0, limiter := c.2 }

/-- `SimpleTokenEstimator.EstimateTokens` (src/unnamed/part_006 lines 23-33):
`0` for empty text, else `ceil(runeCount / 4 * 1.2) + 3`.  With the default
`SafetyMargin` of `1.2` the exact value of the ceiling is `⌈3c/10⌉`, written
here as `(3c + 9) / 10` on naturals; the `float64` computation of the source
agrees with this for every text whose length is far below `2^50`. -/
def EstimateTokens (text : String) : Int :=
  if text = "" then 0
  else ((3 * (text.length : Int) + 9) / 10) + 3

/-- `imagegen.Model` and `imagegen.Provider` are string types. -/
abbrev GoModel := String

/-- `imagegen.ModelDefault = ModelNanoBanana2` (src/unnamed/part_004
lines 14-18). -/
def ModelDefault : GoModel := "nano-banana-2"

/-- The fields of `imagegen.GenerateConfig` (src/gen_config.go lines 37-73)
consulted by the dispatch path under verification. -/
structure GenerateConfig where
  model : GoModel
  WaitOnRateLimit : Bool
  MaxWaitDuration : Int
deriving DecidableEq, Repr

/-- `imagegen.DefaultConfig` (src/gen_config.go lines 86-96): model is
`ModelDefault`; `WaitOnRateLimit` and `MaxWaitDuration` are zero values. -/
def DefaultConfig : GenerateConfig :=
  { model := ModelDefault, WaitOnRateLimit := false, MaxWaitDuration := 0 }

/-- `imagegen.ModelMapping` (part_004 lines 48-51). -/
structure ModelMapping where
  provider : String
  ActualModelName : String
deriving DecidableEq, Repr

/-- `imagegen.InputImage` (src/gen_config.go lines 106-115); bytes as a list
of naturals. -/
structure InputImage where
  Data : List Nat
  MIMEType : String
deriving DecidableEq, Repr

/-- `imagegen.GeneratedImage` (src/result.go lines 30-42), fields used by the
conversation path. -/
structure GeneratedImage where
  Data : List Nat
  MIMEType : String
deriving DecidableEq, Repr

/-- `imagegen.GenerateResult` (src/result.go lines 45-57), fields used by the
conversation path. -/
structure GenerateResult where
  Images : List GeneratedImage
  Text : String
deriving DecidableEq, Repr

/-- `imagegen.ConversationTurn` (src/result.go lines 68-72). -/
structure ConversationTurn where
  Role : String
  Text : String
  Images : List GeneratedImage
deriving DecidableEq, Repr

/-- The error values produced on the dispatch path: `RateLimitError`
(src/unnamed/part_001 lines 10-15), the propagated `WaitAndConsume` failures,
`ErrModelNotRegistered`, `ErrProviderNotConfigured` (part_004 lines 21-25),
and an opaque backend failure. -/
inductive GenError where
  | rateLimit (RetryAfter : Int) (LimitType : String) (Model : GoModel)
  | waitFailed (w : WaitOutcome)
  | modelNotRegistered (model : GoModel)
  | providerNotConfigured (provider : String)
  | backend (msg : String)
deriving DecidableEq, Repr

/-- One backend invocation, for tracing which provider calls a dispatch or a
conversation send performs. -/
inductive BackendCall where
  | generate (prompt : String)
  | edit (image : InputImage) (instruction : String)
  | editMultiple (images : List InputImage) (instruction : String)
  | convSend (prompt : String)
deriving DecidableEq, Repr

/-- A provider instance (an `imagegen.ImageGenerator`, optionally a
`ConversationalImageGenerator`): `supportsConversation` is the
`gen.(ConversationalImageGenerator)` type assertion; the three `Res`
functions give the backend's (deterministic, state-free) responses to the
stateless calls; `convSendRes` gives a native session's response and its
resulting history, as a function of the session history so far. -/
structure ProviderImpl where
  supportsConversation : Bool
  generateRes : String → Except GenError GenerateResult
  editRes : InputImage → String → Except GenError GenerateResult
  editMultipleRes : List InputImage → String → Except GenError GenerateResult
  convSendRes : List ConversationTurn → String → List InputImage →
    Except GenError (GenerateResult × List ConversationTurn)

/-- The fields of `imagegen.Manager` (part_004 lines 55-80) used by the
dispatch and conversation paths; Go maps become association lists. -/
structure Manager where
  modelMappings : List (GoModel × ModelMapping)
  providers : List (String × ProviderImpl)
  defaultModel : GoModel
  rateLimiters : List (GoModel × RateLimiter)

/-- `Manager.resolveModel` (part_004 lines 486-500): start from
`ModelDefault`, take the config's model when the config is non-nil with a
non-empty model, and finally replace a result equal to `ModelDefault` by the
manager's configured default model. -/
def Manager.resolveModel (m : Manager) (config : Option GenerateConfig) : GoModel :=
  let model :=
    match config with
    | some c => if c.model ≠ "" then c.model else ModelDefault
    | none => ModelDefault
  if model = ModelDefault then m.defaultModel else model

/-- Replacing the limiter bound to `model`: the Go source mutates the
`*RateLimiter` held in `m.rateLimiters[model]` in place; in the functional
model the binding is rewritten. -/
def updateLimiter (l : List (GoModel × RateLimiter)) (model : GoModel)
    (rl : RateLimiter) : List (GoModel × RateLimiter) :=
  l.map fun p => if p.1 = model then (model, rl) else p

/-- `tokenBuffer` (part_004 line 455). -/
def tokenBuffer : Int := 100

/-- `Manager.checkRateLimit` (part_004 lines 452-483): no limiter means no
limiting; otherwise estimate, add the buffer, and either wait-and-consume or
try-consume, building a `RateLimitError` with limit type "tokens", the model
identifier, and the limiter's retry-after estimate on rejection (the
`TimeUntilAvailable` call reads the limiter state left by the failed
`TryConsume`, exactly as the source does). -/
def Manager.checkRateLimit (m : Manager) (model : GoModel) (config : GenerateConfig)
    (prompt : String) (now : Int) (cancelAfter : Option Int) :
    Option GenError × Manager :=
  match m.rateLimiters.lookup model with
  | none => (none, m)
  | some limiter =>
    let estimatedTokens := EstimateTokens prompt + tokenBuffer
    if config.WaitOnRateLimit then
      let w := limiter.WaitAndConsume now estimatedTokens config.MaxWaitDuration cancelAfter
      ((if w.outcome = .ok then none else some (.waitFailed w.outcome)),
       { m with rateLimiters := updateLimiter m.rateLimiters model w.limiter })
    else
      let t := limiter.TryConsume estimatedTokens now
      if t.1 then
        (none, { m with rateLimiters := updateLimiter m.rateLimiters model t.2 })
      else
        (some (.rateLimit (t.2.TimeUntilAvailable estimatedTokens now).1 "tokens" model),
         { m with rateLimiters := updateLimiter m.rateLimiters model t.2 })

/-- Outcome of `Manager.Generate`: the error (if any), whether the backend's
`Generate` was invoked, and the manager state (with the limiter updated). -/
structure GenOutcome where
  error : Option GenError
  backendCalled : Bool
  manager : Manager

/-- `Manager.Generate` (part_004 lines 179-240), up to the backend call:
nil config becomes `DefaultConfig`, the model is resolved, the rate limit is
checked (returning its error before any generator lookup), then
`getGeneratorForConfig` (part_004 lines 503-527) looks up the mapping and
the provider; with both present the backend's `Generate` is invoked.  The
backend's own result is outside the claims and is not tracked. -/
def Manager.Generate (m : Manager) (prompt : String) (config0 : Option GenerateConfig)
    (now : Int) (cancelAfter : Option Int) : GenOutcome :=
  let config := config0.getD DefaultConfig
  let model := m.resolveModel (some config)
  let c := m.checkRateLimit model config prompt now cancelAfter
  match c.1 with
  | some e => { error := some e, backendCalled := false, manager := c.2 }
  | none =>
    match c.2.modelMappings.lookup model with
    | none => { error := some (.modelNotRegistered model), backendCalled := false, manager := c.2 }
    | some mapping =>
      match c.2.providers.lookup mapping.provider with
      | none =>
          { error := some (.providerNotConfigured mapping.provider)
            backendCalled := false, manager := c.2 }
      | some _ => { error := none, backendCalled := true, manager := c.2 }

/-- A bound backend-native conversation session: the provider it was started
on and the session's own history.  (In the source this is the
`Conversation` object returned by `StartConversation`.) -/
structure ProviderSession where
  impl : ProviderImpl
  hist : List ConversationTurn

/-- `imagegen.ManagedConversation` (src/unnamed/part_000 lines 239-250).
`providerConv = none` models the nil provider conversation; `convProvider`
is the provider the session is bound to (zero value `""`). -/
structure ManagedConversation where
  history : List ConversationTurn
  lockedModel : GoModel
  modelLocked : Bool
  providerConv : Option ProviderSession
  convProvider : String

/-- `Manager.StartConversation` (part_004 lines 387-392). -/
def Manager.StartConversation : ManagedConversation :=
  { history := [], lockedModel := "", modelLocked := false
    providerConv := none, convProvider := "" }

/-- Outcome of `ManagedConversation.Send`: the call's result, the updated
conversation, and the backend calls performed. -/
structure SendOutcome where
  result : Except GenError GenerateResult
  conv : ManagedConversation
  calls : List BackendCall

/-- The model-resolution step of `ManagedConversation.Send` (part_000 lines
257-265): the locked model if the conversation was pinned at creation, else
the per-call config's non-empty model, else the manager's default. -/
def ManagedConversation.resolveSendModel (c : ManagedConversation) (m : Manager)
    (config : Option GenerateConfig) : GoModel :=
  if c.modelLocked then c.lockedModel
  else
    match config with
    | some cfg => if cfg.model ≠ "" then cfg.model else m.defaultModel
    | none => m.defaultModel

/-- The tail of `ManagedConversation.Send` (part_000 lines 295-358), reached
when no continuable session exists: fetch the provider, start a native
session when supported, else fall back to a single stateless call with
manual history tracking. -/
def ManagedConversation.sendNewProvider (c : ManagedConversation) (m : Manager)
    (prompt : String) (images : List InputImage) (mapping : ModelMapping) :
    SendOutcome :=
  match m.providers.lookup mapping.provider with
  | none => { result := .error (.providerNotConfigured mapping.provider), conv := c, calls := [] }
  | some impl =>
    if impl.supportsConversation then
      let c1 := { c with
        providerConv := some { impl := impl, hist := [] }
        convProvider := mapping.provider }
      match impl.convSendRes [] prompt images with
      | .error e => { result := .error e, conv := c1, calls := [.convSend prompt] }
      | .ok r =>
          { result := .ok r.1
            conv := { c1 with
              providerConv := some { impl := impl, hist := r.2 }
              history := r.2 }
            calls := [.convSend prompt] }
    else
      let callRes :=
        if images.length > 0 then
          (impl.editMultipleRes images prompt, BackendCall.editMultiple images prompt)
        else
          (impl.generateRes prompt, BackendCall.generate prompt)
      match callRes.1 with
      | .error e => { result := .error e, conv := c, calls := [callRes.2] }
      | .ok result =>
        let userTurn : ConversationTurn :=
          { Role := "user", Text := prompt
            Images := images.map fun img => { Data := img.Data, MIMEType := img.MIMEType } }
        let modelTurn : ConversationTurn :=
          { Role := "model", Text := result.Text, Images := result.Images }
        { result := .ok result
          conv := { c with history := c.history ++ [userTurn, modelTurn] }
          calls := [callRes.2] }

/-- `ManagedConversation.Send` (part_000 lines 253-358).  Model resolution
uses the locked model, else the config's non-empty model, else the manager's
default.  A live session bound to the resolved mapping's provider is
continued, with local history overwritten by the session's history.
Otherwise the provider is fetched; a conversational provider gets a fresh
session; a non-conversational one gets a single stateless call —
`EditMultiple` when input images are present, else `Generate` — followed by
manual appending of one user turn and one model turn. -/
def ManagedConversation.Send (c : ManagedConversation) (m : Manager)
    (prompt : String) (images : List InputImage) (config : Option GenerateConfig) :
    SendOutcome :=
  let model := c.resolveSendModel m config
  match m.modelMappings.lookup model with
  | none => { result := .error (.modelNotRegistered model), conv := c, calls := [] }
  | some mapping =>
    match c.providerConv with
    | some sess =>
      if c.convProvider = mapping.provider then
        match sess.impl.convSendRes sess.hist prompt images with
        | .error e => { result := .error e, conv := c, calls := [.convSend prompt] }
        | .ok r =>
            { result := .ok r.1
              conv := { c with
                providerConv := some { impl := sess.impl, hist := r.2 }
                history := r.2 }
              calls := [.convSend prompt] }
      else
        ManagedConversation.sendNewProvider c m prompt images mapping
    | none => ManagedConversation.sendNewProvider c m prompt images mapping

/-- Run a sequence of `Send` calls, stopping at the first failure. -/
def ManagedConversation.sendMany (c : ManagedConversation) (m : Manager)
    (inputs : List (String × List InputImage × Option GenerateConfig)) :
    Option ManagedConversation :=
  match inputs with
  | [] => some c
  | i :: rest =>
    let out := c.Send m i.1 i.2.1 i.2.2
    match out.result with
    | .error _ => none
    | .ok _ => out.conv.sendMany m rest

/-- History alternates strictly as user, model, user, model, …; in
particular its length is even. -/
def altHistory : List ConversationTurn → Bool
  | [] => true
  | u :: v :: rest => u.Role = "user" && v.Role = "model" && altHistory rest
  | [_] => false

/-- One `Send` input will take the stateless fallback path and succeed: its
resolved model is mapped, the mapped provider is configured, has no native
conversation support, and the stateless backend call answers `.ok`. -/
def statelessOK (c : ManagedConversation) (m : Manager)
    (i : String × List InputImage × Option GenerateConfig) : Prop :=
  ∃ mapping impl r,
    m.modelMappings.lookup (c.resolveSendModel m i.2.2) = some mapping ∧
    m.providers.lookup mapping.provider = some impl ∧
    impl.supportsConversation = false ∧
    (if i.2.1.length > 0 then impl.editMultipleRes i.2.1 i.1
      else impl.generateRes i.1) = .ok r

namespace GoHeap

/-!
A reference-level model for `ManagedConversation.History` (part_000 lines
361-368; `GeminiConversation.History`, src/provider/gemini/gemini.go lines
457-465, has the identical body).  Go slices are reference values: the
source's `make` + `copy` duplicates the top-level `[]ConversationTurn`
backing array but copies the `ConversationTurn` structs shallowly, so the
`Images` slices and the image `Data` byte slices of the copy keep pointing
into the conversation's own storage.  Here byte slices live in a heap,
addressed by `dataRef`, and the top-level turn arrays live in a heap of
turn arrays, so that this sharing is observable.
-/

/-- A `GeneratedImage` as stored in a turn: the `Data` field is a reference
into the byte heap. -/
structure ImageVal where
  dataRef : Nat
  MIMEType : String
deriving DecidableEq, Repr

/-- A `ConversationTurn` as stored in a history array. -/
structure TurnVal where
  Role : String
  Text : String
  Images : List ImageVal
deriving DecidableEq, Repr

/-- The heap: backing arrays for `[]ConversationTurn` values and for
`[]byte` values, plus an allocation counter. -/
structure Heap where
  turnArrays : Nat → List TurnVal
  byteArrays : Nat → List Nat
  nextId : Nat

/-- A conversation's internal state: the reference to its history array. -/
structure ConvState where
  historyRef : Nat

/-- Well-formedness: the conversation's history array was allocated. -/
def Heap.WF (h : Heap) (c : ConvState) : Prop :=
  c.historyRef < h.nextId

/-- `ManagedConversation.History` (part_000 lines 361-368):
`historyCopy := make([]ConversationTurn, len(c.history)); copy(historyCopy,
c.history); return historyCopy` — allocate a fresh top-level array holding
the same turn values (hence the same image data references) and return it. -/
def History (h : Heap) (c : ConvState) : Nat × Heap :=
  let contents := h.turnArrays c.historyRef
  (h.nextId,
   { h with
       turnArrays := fun i => if i = h.nextId then contents else h.turnArrays i
       nextId := h.nextId + 1 })

/-- A caller storing a turn into a slice of turns (`s[i] = t`). -/
def writeTurn (h : Heap) (ref i : Nat) (t : TurnVal) : Heap :=
  { h with
      turnArrays := fun j => if j = ref then (h.turnArrays ref).set i t else h.turnArrays j }

/-- A caller writing a byte of some image's data (`img.Data[i] = v`). -/
def writeByte (h : Heap) (ref i : Nat) (v : Nat) : Heap :=
  { h with
      byteArrays := fun j => if j = ref then (h.byteArrays ref).set i v else h.byteArrays j }

/-- A fully dereferenced turn: every image's bytes read out of the heap. -/
structure RTurn where
  Role : String
  Text : String
  Images : List (List Nat × String)
deriving DecidableEq, Repr

/-- Dereference one turn. -/
def renderTurn (h : Heap) (t : TurnVal) : RTurn :=
  { Role := t.Role, Text := t.Text
    Images := t.Images.map fun img => (h.byteArrays img.dataRef, img.MIMEType) }

/-- Dereference a whole turn array. -/
def renderSlice (h : Heap) (ref : Nat) : List RTurn :=
  (h.turnArrays ref).map (renderTurn h)

/-- The observable content of the conversation's internal history. -/
def renderHistory (h : Heap) (c : ConvState) : List RTurn :=
  renderSlice h c.historyRef

end GoHeap

/-- A concrete heap: the conversation's history (array 0) holds one user
turn whose image's bytes live in array 10. -/
def c8Heap : GoHeap.Heap :=
  { turnArrays := fun i =>
      if i = 0 then
        [{ Role := "user", Text := "p", Images := [{ dataRef := 10, MIMEType := "image/png" }] }]
      else []
    byteArrays := fun i => if i = 10 then [1, 2, 3] else []
    nextId := 11 }

/-- The conversation state over `c8Heap`. -/
def c8Conv : GoHeap.ConvState := { historyRef := 0 }

/-- The token-bucket invariant of C9: `0 ≤ remaining ≤ capacity`. -/
def bucketInv (tb : TokenBucket) : Prop :=
  0 ≤ tb.remaining ∧ tb.remaining ≤ tb.capacity

/-! ## Concrete fixtures (mirroring the repository's own tests) -/

/-- A provider behaving like the tests' `MockImageGenerator` with no
conversation support: every call succeeds with an empty result. -/
def mockProvider : ProviderImpl where
  supportsConversation := false
  generateRes := fun _ => .ok { Images := [], Text := "" }
  editRes := fun _ _ => .ok { Images := [], Text := "" }
  editMultipleRes := fun _ _ => .ok { Images := [], Text := "" }
  convSendRes := fun _ _ _ => .ok ({ Images := [], Text := "" }, [])

/-- The manager of `TestManager_Generate_RateLimit` (src/unnamed/part_000
lines 113-168): model "test-model" on provider "test-provider" with a
100-token/minute, 10-request/minute limiter, created at time 0. -/
def mgrSmall : Manager :=
  { modelMappings :=
      [("test-model", { provider := "test-provider", ActualModelName := "test-model-api" })]
    providers := [("test-provider", mockProvider)]
    defaultModel := ModelDefault
    rateLimiters :=
      [("test-model", NewLimiter { TokensPerMinute := 100, RequestsPerMinute := 10 } 0)] }

/-- The same manager after `SetRateLimiter("test-model", ratelimiter.New(200, 10))`. -/
def mgrLarge : Manager :=
  { mgrSmall with
      rateLimiters :=
        [("test-model", NewLimiter { TokensPerMinute := 200, RequestsPerMinute := 10 } 0)] }

/-- The request config of the rate-limit test: explicit model, no waiting. -/
def cfgTest : GenerateConfig :=
  { model := "test-model", WaitOnRateLimit := false, MaxWaitDuration := 0 }

/-! ## Helper lemmas about the token bucket -/

theorem consume_fail_state (tb : TokenBucket) (tokens now : Int)
    (h : (tb.Consume tokens now).1 = false) :
    (tb.Consume tokens now).2 = tb.refillIfDue now := by
  by_cases h2 : tokens ≤ (tb.refillIfDue now).remaining
  · simp [TokenBucket.Consume, h2] at h
  · simp [TokenBucket.Consume, h2]

theorem consume_ok_remaining (tb : TokenBucket) (tokens now : Int)
    (h : (tb.Consume tokens now).1 = true) :
    (tb.Consume tokens now).2.remaining = (tb.refillIfDue now).remaining - tokens := by
  by_cases h2 : tokens ≤ (tb.refillIfDue now).remaining
  · simp [TokenBucket.Consume, h2]
  · simp [TokenBucket.Consume, h2] at h

/-- The per-bucket availability check of `HasCapacity` agrees with the
success/failure of `Consume`: both compare against the refill-adjusted
remaining. -/
theorem hasCapacity_fst_eq_consume_fst (tb : TokenBucket) (tokens now : Int) :
    (tb.HasCapacity tokens now).1 = (tb.Consume tokens now).1 := by
  unfold TokenBucket.HasCapacity TokenBucket.Consume TokenBucket.refillIfDue
  by_cases h : now - tb.lastRefill ≥ tb.refillInterval <;>
    simp [h] <;> split <;> simp_all

/-- The composite `HasCapacity` agrees with the success bit of the composite
`TryConsume` (the request bucket is read at the same instant in both). -/
theorem rl_hasCapacity_eq_tryConsume_fst (rl : RateLimiter) (n now : Int) :
    (rl.HasCapacity n now).1 = (rl.TryConsume n now).1 := by
  unfold RateLimiter.HasCapacity RateLimiter.TryConsume TokenBucket.TryConsume
  rw [hasCapacity_fst_eq_consume_fst, hasCapacity_fst_eq_consume_fst]
  by_cases h : (rl.TokensBucket.Consume n now).1 <;> simp [h]

/-! ## C4: consuming from a full bucket within the refill interval -/

/-- C4: for a token bucket with capacity `c` that is full (`remaining = c`)
and within its refill interval, `TryConsume n` with `n ≤ c` returns `true`
and leaves `remaining = c - n`; `TryConsume (c+1)` returns `false` and the
state is unchanged (the refill check finds no full interval elapsed, so it
changes nothing). -/
theorem c4_full_bucket_consume (tb : TokenBucket) (n now : Int)
    (hfull : tb.remaining = tb.capacity)
    (hwithin : now - tb.lastRefill < tb.refillInterval)
    (hn : n ≤ tb.capacity) :
    tb.TryConsume n now = (true, { tb with remaining := tb.capacity - n }) ∧
    tb.TryConsume (tb.capacity + 1) now = (false, tb) := by
  have h1 : ¬ (now - tb.lastRefill ≥ tb.refillInterval) := not_le.mpr hwithin
  constructor
  · simp only [TokenBucket.TryConsume, TokenBucket.Consume, TokenBucket.refillIfDue,
      if_neg h1, hfull]
    rw [if_pos hn]
  · have h2 : ¬ (tb.capacity + 1 ≤ tb.remaining) := by omega
    simp only [TokenBucket.TryConsume, TokenBucket.Consume, TokenBucket.refillIfDue,
      if_neg h1, if_neg h2]

/-- Witness for C4 at capacity 10, `n = 4`, `now = 30`, interval 60. -/
theorem c4_full_bucket_consume_witness :
    (TokenBucket.mk 10 10 60 0).remaining = (TokenBucket.mk 10 10 60 0).capacity ∧
    ((30 : Int) - (TokenBucket.mk 10 10 60 0).lastRefill < (TokenBucket.mk 10 10 60 0).refillInterval) ∧
    ((4 : Int) ≤ (TokenBucket.mk 10 10 60 0).capacity) ∧
    ((TokenBucket.mk 10 10 60 0).TryConsume 4 30 =
        (true, { TokenBucket.mk 10 10 60 0 with remaining := (TokenBucket.mk 10 10 60 0).capacity - 4 }) ∧
      (TokenBucket.mk 10 10 60 0).TryConsume ((TokenBucket.mk 10 10 60 0).capacity + 1) 30 =
        (false, TokenBucket.mk 10 10 60 0)) :=
  ⟨rfl, by decide, by decide,
   c4_full_bucket_consume (TokenBucket.mk 10 10 60 0) 4 30 rfl (by decide) (by decide)⟩

/-! ## C9: the 0 ≤ remaining ≤ capacity invariant -/

/-- C9: a bucket created with `0 ≤ initialTokens ≤ capacity` satisfies
`0 ≤ remaining ≤ capacity`, and the invariant is preserved by `Consume` and
`TryConsume` with a non-negative amount, by `Wait`, and (trivially, their
bodies write no state) by `HasCapacity` and `TimeUntilAvailable`, at every
`now`: refills are capped at capacity and a consume decrements only when the
amount is at most `remaining`. -/
theorem c9_bucket_invariant (capacity initialTokens refillInterval now0 : Int)
    (tb : TokenBucket) (tokens now : Int)
    (hinit0 : 0 ≤ initialTokens) (hinitc : initialTokens ≤ capacity)
    (hinv : bucketInv tb) (htok : 0 ≤ tokens) :
    bucketInv (NewTokenBucket capacity initialTokens refillInterval now0) ∧
    bucketInv (tb.Consume tokens now).2 ∧
    bucketInv (tb.TryConsume tokens now).2 ∧
    bucketInv (tb.Wait tokens now).2 ∧
    (tb.HasCapacity tokens now).2 = tb ∧
    (tb.TimeUntilAvailable tokens now).2 = tb := by
  obtain ⟨hr0, hrc⟩ := hinv
  have hcons : bucketInv (tb.Consume tokens now).2 := by
    simp only [TokenBucket.Consume, TokenBucket.refillIfDue, bucketInv]
    split <;> split <;> simp_all <;> omega
  have hTU : (tb.TimeUntilAvailable tokens now).2 = tb := by
    simp only [TokenBucket.TimeUntilAvailable]
    split <;> rfl
  refine ⟨⟨hinit0, hinitc⟩, hcons, hcons, ?_, rfl, hTU⟩
  simp only [TokenBucket.Wait, bucketInv]
  by_cases h1 : now - tb.lastRefill ≥ tb.refillInterval
  · rw [if_pos h1]
    split <;> simp <;> omega
  · by_cases h2 : now - tb.lastRefill > 0
    · have hdiv : 0 ≤ Int.tdiv (tb.capacity * (now - tb.lastRefill)) tb.refillInterval :=
        Int.tdiv_nonneg (mul_nonneg (by omega) (by omega)) (by omega)
      rw [if_neg h1, if_pos h2]
      split <;> simp <;> omega
    · rw [if_neg h1, if_neg h2]
      split <;> simp <;> omega

/-- Witness for C9 at a bucket `⟨10, 7, 60, 0⟩`, consuming 3 at `now = 20`. -/
theorem c9_bucket_invariant_witness :
    (0 : Int) ≤ 7 ∧ (7 : Int) ≤ 10 ∧
    bucketInv (TokenBucket.mk 10 7 60 0) ∧ (0 : Int) ≤ 3 ∧
    (bucketInv (NewTokenBucket 10 7 60 0) ∧
      bucketInv ((TokenBucket.mk 10 7 60 0).Consume 3 20).2 ∧
      bucketInv ((TokenBucket.mk 10 7 60 0).TryConsume 3 20).2 ∧
      bucketInv ((TokenBucket.mk 10 7 60 0).Wait 3 20).2 ∧
      ((TokenBucket.mk 10 7 60 0).HasCapacity 3 20).2 = TokenBucket.mk 10 7 60 0 ∧
      ((TokenBucket.mk 10 7 60 0).TimeUntilAvailable 3 20).2 = TokenBucket.mk 10 7 60 0) :=
  ⟨by decide, by decide, ⟨by decide, by decide⟩, by decide,
   c9_bucket_invariant 10 7 60 0 (TokenBucket.mk 10 7 60 0) 3 20
     (by decide) (by decide) ⟨by decide, by decide⟩ (by decide)⟩

/-! ## C10: a zero request capacity permanently rejects -/

/-- C10: `NewLimiter` with `RequestsPerMinute = 0` gives a request bucket of
capacity 0 and remaining 0; for any limiter whose request bucket has
capacity 0 and non-positive remaining, `TryConsume n` with `n ≥ 0` returns
`false` at every time, and the request bucket's capacity-0 / non-positive
remaining state is preserved, so the limiter permanently rejects every
request. -/
theorem c10_zero_requests_rejects (t now0 : Int) (rl : RateLimiter) (n now : Int)
    (hcap : rl.RequestsBucket.capacity = 0)
    (hrem : rl.RequestsBucket.remaining ≤ 0)
    (hn : 0 ≤ n) :
    (NewLimiter ⟨t, 0⟩ now0).RequestsBucket.capacity = 0 ∧
    (NewLimiter ⟨t, 0⟩ now0).RequestsBucket.remaining = 0 ∧
    (rl.TryConsume n now).1 = false ∧
    (rl.TryConsume n now).2.RequestsBucket.capacity = 0 ∧
    (rl.TryConsume n now).2.RequestsBucket.remaining ≤ 0 := by
  refine ⟨rfl, rfl, ?_⟩
  have hrefill : ((rl.RequestsBucket.refillIfDue now).capacity = 0 ∧
      (rl.RequestsBucket.refillIfDue now).remaining ≤ 0) := by
    unfold TokenBucket.refillIfDue
    split <;> simp [hcap, hrem]
  have hfail : (rl.RequestsBucket.Consume 1 now).1 = false := by
    have hc : ¬ ((1 : Int) ≤ (rl.RequestsBucket.refillIfDue now).remaining) := by omega
    simp [TokenBucket.Consume, hc]
  have hstate := consume_fail_state rl.RequestsBucket 1 now hfail
  simp only [RateLimiter.TryConsume, TokenBucket.TryConsume]
  by_cases h1 : (rl.TokensBucket.Consume n now).1
  · simp only [h1, if_true, hfail, hstate]
    exact ⟨by trivial, hrefill.1, hrefill.2⟩
  · simp only [h1]
    simp only [Bool.false_eq_true, if_false]
    exact ⟨by trivial, hcap, hrem⟩

/-- Witness for C10: `NewLimiter` over 100 tokens/min and 0 requests/min
rejects a request for 10 tokens one second after creation. -/
theorem c10_zero_requests_rejects_witness :
    (NewLimiter ⟨100, 0⟩ 0).RequestsBucket.capacity = 0 ∧
    (NewLimiter ⟨100, 0⟩ 0).RequestsBucket.remaining ≤ 0 ∧
    (0 : Int) ≤ 10 ∧
    (((NewLimiter ⟨100, 0⟩ 0).TryConsume 10 1000000000).1 = false ∧
      ((NewLimiter ⟨100, 0⟩ 0).TryConsume 10 1000000000).2.RequestsBucket.capacity = 0 ∧
      ((NewLimiter ⟨100, 0⟩ 0).TryConsume 10 1000000000).2.RequestsBucket.remaining ≤ 0) :=
  ⟨by decide, by decide, by decide,
   ((c10_zero_requests_rejects 100 0 (NewLimiter ⟨100, 0⟩ 0) 10 1000000000
      (by decide) (by decide) (by decide)).2.2 : _)⟩

/-! ## C1: asymmetric commit in the composite TryConsume -/

/-- C1 (amended): if at the moment `TryConsume n` runs the token bucket can
supply `n` but the request bucket cannot supply 1, then `TryConsume` returns
`false`, the `n`-token deduction from the token bucket remains committed
(its remaining is the refill-adjusted remaining minus `n`, not rolled back),
and the request bucket undergoes only its refill check — no request is
deducted from it.  (It is left exactly unchanged whenever its capacity is at
least 1, since a committed refill would then have allowed the request.) -/
theorem c1_asymmetric_commit (rl : RateLimiter) (n now : Int)
    (htok : (rl.TokensBucket.Consume n now).1 = true)
    (hreq : (rl.RequestsBucket.Consume 1 now).1 = false) :
    (rl.TryConsume n now).1 = false ∧
    (rl.TryConsume n now).2.TokensBucket = (rl.TokensBucket.Consume n now).2 ∧
    (rl.TryConsume n now).2.TokensBucket.remaining
      = (rl.TokensBucket.refillIfDue now).remaining - n ∧
    (rl.TryConsume n now).2.RequestsBucket = rl.RequestsBucket.refillIfDue now := by
  have hstate := consume_fail_state rl.RequestsBucket 1 now hreq
  have hrem := consume_ok_remaining rl.TokensBucket n now htok
  simp only [RateLimiter.TryConsume, TokenBucket.TryConsume, htok, if_true, hreq, hstate]
  exact ⟨by trivial, by trivial, hrem, by trivial⟩

/-- Counterexample to C1 as stated: with a capacity-0 request bucket and a
full interval elapsed, the failing composite consume still commits the
request bucket's refill check, advancing its `lastRefill` — the request
bucket is *not* unchanged (even though the token-supply and request-reject
premises of the claim hold and the token deduction is committed). -/
theorem c1_counterexample :
    ((RateLimiter.mk (TokenBucket.mk 10 10 60 0) (TokenBucket.mk 0 0 60 0)).TokensBucket.Consume
        5 60).1 = true ∧
    ((RateLimiter.mk (TokenBucket.mk 10 10 60 0) (TokenBucket.mk 0 0 60 0)).RequestsBucket.Consume
        1 60).1 = false ∧
    ((RateLimiter.mk (TokenBucket.mk 10 10 60 0) (TokenBucket.mk 0 0 60 0)).TryConsume 5 60).1
        = false ∧
    ((RateLimiter.mk (TokenBucket.mk 10 10 60 0) (TokenBucket.mk 0 0 60 0)).TryConsume
        5 60).2.TokensBucket.remaining = 5 ∧
    ((RateLimiter.mk (TokenBucket.mk 10 10 60 0) (TokenBucket.mk 0 0 60 0)).TryConsume
        5 60).2.RequestsBucket
      ≠ (RateLimiter.mk (TokenBucket.mk 10 10 60 0) (TokenBucket.mk 0 0 60 0)).RequestsBucket := by
  decide

/-- Witness for C1 (amended) at a limiter whose request bucket is exhausted
within the interval: tokens committed, request bucket touched only by the
(no-op) refill check. -/
theorem c1_asymmetric_commit_witness :
    ((RateLimiter.mk (TokenBucket.mk 100 50 60 0) (TokenBucket.mk 10 0 60 0)).TokensBucket.Consume
        7 30).1 = true ∧
    ((RateLimiter.mk (TokenBucket.mk 100 50 60 0) (TokenBucket.mk 10 0 60 0)).RequestsBucket.Consume
        1 30).1 = false ∧
    (((RateLimiter.mk (TokenBucket.mk 100 50 60 0) (TokenBucket.mk 10 0 60 0)).TryConsume 7 30).1
        = false ∧
      ((RateLimiter.mk (TokenBucket.mk 100 50 60 0) (TokenBucket.mk 10 0 60 0)).TryConsume
          7 30).2.TokensBucket
        = ((RateLimiter.mk (TokenBucket.mk 100 50 60 0) (TokenBucket.mk 10 0 60 0)).TokensBucket.Consume
            7 30).2 ∧
      ((RateLimiter.mk (TokenBucket.mk 100 50 60 0) (TokenBucket.mk 10 0 60 0)).TryConsume
          7 30).2.TokensBucket.remaining
        = ((RateLimiter.mk (TokenBucket.mk 100 50 60 0) (TokenBucket.mk 10 0 60 0)).TokensBucket.refillIfDue
            30).remaining - 7 ∧
      ((RateLimiter.mk (TokenBucket.mk 100 50 60 0) (TokenBucket.mk 10 0 60 0)).TryConsume
          7 30).2.RequestsBucket
        = (RateLimiter.mk (TokenBucket.mk 100 50 60 0) (TokenBucket.mk 10 0 60 0)).RequestsBucket.refillIfDue
            30) :=
  ⟨by decide, by decide,
   c1_asymmetric_commit (RateLimiter.mk (TokenBucket.mk 100 50 60 0) (TokenBucket.mk 10 0 60 0))
     7 30 (by decide) (by decide)⟩

/-! ## C5: TimeUntilAvailable -/

/-- C5 (amended): `TimeUntilAvailable n` mutates no bucket state; it returns
0 whenever `n` is satisfiable from the effective remaining after the partial
linear refill; otherwise it returns the shortfall divided by the refill rate
plus a 10% buffer (both divisions truncated), which is strictly positive
whenever `0 < capacity ≤ refillInterval` (i.e. whenever the refill rate is
at most one token per nanosecond; with a faster rate the truncated quotient
can be zero, see the counterexample). -/
theorem c5_timeUntilAvailable (tb : TokenBucket) (n now : Int)
    (hcap : 0 < tb.capacity) (hci : tb.capacity ≤ tb.refillInterval) :
    (tb.TimeUntilAvailable n now).2 = tb ∧
    (n ≤ tb.effectiveRemaining now → (tb.TimeUntilAvailable n now).1 = 0) ∧
    (tb.effectiveRemaining now < n →
      (tb.TimeUntilAvailable n now).1 =
        Int.tdiv ((n - tb.effectiveRemaining now) * tb.refillInterval) tb.capacity
          + Int.tdiv (Int.tdiv ((n - tb.effectiveRemaining now) * tb.refillInterval) tb.capacity) 10 ∧
      0 < (tb.TimeUntilAvailable n now).1) := by
  refine ⟨?_, ?_, ?_⟩
  · simp only [TokenBucket.TimeUntilAvailable]
    split <;> rfl
  · intro h
    simp [TokenBucket.TimeUntilAvailable, h]
  · intro h
    have hns : ¬ (n ≤ tb.effectiveRemaining now) := by omega
    simp only [TokenBucket.TimeUntilAvailable, hns, if_false]
    refine ⟨by trivial, ?_⟩
    have hneed : 1 ≤ n - tb.effectiveRemaining now := by omega
    have hint : 0 < tb.refillInterval := by omega
    have hmul : tb.capacity ≤ (n - tb.effectiveRemaining now) * tb.refillInterval := by
      calc tb.capacity ≤ tb.refillInterval := hci
        _ = 1 * tb.refillInterval := (one_mul _).symm
        _ ≤ (n - tb.effectiveRemaining now) * tb.refillInterval := by
              exact mul_le_mul_of_nonneg_right hneed (by omega)
    have hwd : 1 ≤ Int.tdiv ((n - tb.effectiveRemaining now) * tb.refillInterval) tb.capacity := by
      rw [Int.tdiv_eq_ediv (by nlinarith) (by omega)]
      rw [Int.le_ediv_iff_mul_le hcap]
      omega
    have hbuf : 0 ≤ Int.tdiv
        (Int.tdiv ((n - tb.effectiveRemaining now) * tb.refillInterval) tb.capacity) 10 :=
      Int.tdiv_nonneg (by omega) (by omega)
    omega

/-- Counterexample to C5 as stated: a bucket of capacity 2 with a 1 ns
refill interval and nothing remaining cannot satisfy a request for 1 token,
yet `TimeUntilAvailable 1` returns 0 (the shortfall over the >1 token/ns
refill rate truncates to zero; the Go `float64` computation is exact here:
`time.Duration(1.0 / 2.0) == 0`), contradicting "returns 0 exactly when
satisfiable / otherwise strictly positive". -/
theorem c5_counterexample :
    (TokenBucket.mk 2 0 1 0).effectiveRemaining 0 < 1 ∧
    ((TokenBucket.mk 2 0 1 0).TimeUntilAvailable 1 0).1 = 0 := by
  decide

/-- Witness for C5 (amended): bucket `⟨10, 2, 60, 0⟩` at `now = 0`; a
request for 1 is satisfiable (value 0), and the conclusions hold. -/
theorem c5_timeUntilAvailable_witness :
    (0 : Int) < (TokenBucket.mk 10 2 60 0).capacity ∧
    (TokenBucket.mk 10 2 60 0).capacity ≤ (TokenBucket.mk 10 2 60 0).refillInterval ∧
    (((TokenBucket.mk 10 2 60 0).TimeUntilAvailable 1 0).2 = TokenBucket.mk 10 2 60 0 ∧
      ((1 : Int) ≤ (TokenBucket.mk 10 2 60 0).effectiveRemaining 0 →
        ((TokenBucket.mk 10 2 60 0).TimeUntilAvailable 1 0).1 = 0) ∧
      ((TokenBucket.mk 10 2 60 0).effectiveRemaining 0 < 1 →
        ((TokenBucket.mk 10 2 60 0).TimeUntilAvailable 1 0).1 =
          Int.tdiv ((1 - (TokenBucket.mk 10 2 60 0).effectiveRemaining 0) * (TokenBucket.mk 10 2 60 0).refillInterval)
              (TokenBucket.mk 10 2 60 0).capacity
            + Int.tdiv
                (Int.tdiv ((1 - (TokenBucket.mk 10 2 60 0).effectiveRemaining 0) * (TokenBucket.mk 10 2 60 0).refillInterval)
                  (TokenBucket.mk 10 2 60 0).capacity) 10 ∧
        0 < ((TokenBucket.mk 10 2 60 0).TimeUntilAvailable 1 0).1)) :=
  ⟨by decide, by decide,
   c5_timeUntilAvailable (TokenBucket.mk 10 2 60 0) 1 0 (by decide) (by decide)⟩

/-! ## C6: WaitAndConsume -/

/-- C6: `WaitAndConsume(ctx, n, maxWait)`: when `maxWait > 0` and the
computed wait (the maximum of the two buckets' estimates) exceeds `maxWait`,
it returns the wait-exceeded error immediately, without sleeping and without
consuming (state unchanged); when `maxWait = 0` the wait is unlimited: it
never returns wait-exceeded, a cancellation firing during the sleep returns
the context's error with the limiter untouched, and otherwise it sleeps the
full computed duration (zero sleep when the wait is zero), then performs the
consume, returning `nil` (outcome `ok`) when that consume succeeds. -/
theorem c6_waitAndConsume (rl : RateLimiter) (now tokens maxWait : Int)
    (cancelAfter : Option Int) :
    (0 < maxWait → maxWait < (rl.TimeUntilAvailable tokens now).1 →
      rl.WaitAndConsume now tokens maxWait cancelAfter =
        { outcome := .waitExceeded, slept := 0, limiter := rl }) ∧
    ((rl.WaitAndConsume now tokens 0 cancelAfter).outcome ≠ .waitExceeded) ∧
    (∀ t, cancelAfter = some t → 0 < (rl.TimeUntilAvailable tokens now).1 →
        t < (rl.TimeUntilAvailable tokens now).1 →
      rl.WaitAndConsume now tokens 0 cancelAfter =
        { outcome := .ctxCancelled, slept := t, limiter := rl }) ∧
    ((∀ t, cancelAfter = some t → (rl.TimeUntilAvailable tokens now).1 ≤ t) →
      (rl.WaitAndConsume now tokens 0 cancelAfter).slept =
          (if 0 < (rl.TimeUntilAvailable tokens now).1
            then (rl.TimeUntilAvailable tokens now).1 else 0) ∧
      (rl.WaitAndConsume now tokens 0 cancelAfter).limiter =
          (rl.CanProceed tokens
            (now + (if 0 < (rl.TimeUntilAvailable tokens now).1
                      then (rl.TimeUntilAvailable tokens now).1 else 0))).2 ∧
      ((rl.CanProceed tokens
          (now + (if 0 < (rl.TimeUntilAvailable tokens now).1
                    then (rl.TimeUntilAvailable tokens now).1 else 0))).1 = true →
        (rl.WaitAndConsume now tokens 0 cancelAfter).outcome = .ok)) := by
  refine ⟨?_, ?_, ?_, ?_⟩
  · intro hmw hex
    have hpos : (rl.TimeUntilAvailable tokens now).1 > 0 := by omega
    simp [RateLimiter.WaitAndConsume, hpos, hmw, hex]
  · by_cases hpos : (rl.TimeUntilAvailable tokens now).1 > 0
    · cases cancelAfter with
      | none =>
        simp only [RateLimiter.WaitAndConsume, hpos, if_true]
        rw [if_neg (by omega)]
        split <;> simp_all
      | some t =>
        simp only [RateLimiter.WaitAndConsume, hpos, if_true]
        rw [if_neg (by omega)]
        by_cases ht : t < (rl.TimeUntilAvailable tokens now).1
        · simp [ht]
        · simp only [ht, if_false]
          split <;> simp_all
    · simp only [RateLimiter.WaitAndConsume, hpos, if_false]
      split <;> simp_all
  · intro t hca hpos ht
    subst hca
    simp only [RateLimiter.WaitAndConsume, hpos, if_true]
    rw [if_neg (by omega)]
    simp [ht]
  · intro hnc
    by_cases hpos : (rl.TimeUntilAvailable tokens now).1 > 0
    · cases cancelAfter with
      | none =>
        simp only [RateLimiter.WaitAndConsume, hpos, if_true]
        rw [if_neg (by omega)]
        refine ⟨by simp [hpos], by simp [hpos], ?_⟩
        intro hc
        simp [hpos, hc]
      | some t =>
        have ht : ¬ (t < (rl.TimeUntilAvailable tokens now).1) := by
          have := hnc t rfl
          omega
        simp only [RateLimiter.WaitAndConsume, hpos, if_true]
        rw [if_neg (by omega)]
        refine ⟨by simp [hpos, ht], by simp [hpos, ht], ?_⟩
        intro hc
        simp [hpos, ht, hc]
    · simp only [RateLimiter.WaitAndConsume, hpos, if_false]
      refine ⟨by simp [hpos], by simp [hpos], ?_⟩
      intro hc
      rw [add_zero] at hc
      simp [hpos, hc]

/-- Witness for C6 at a limiter whose token bucket is empty (capacity 1,
interval 60): the computed wait is 66; `maxWait = 5` fails immediately with
state untouched; `maxWait = 0` with no cancellation sleeps the full 66 and
the consume then succeeds; `maxWait = 0` with a cancellation at 10 < 66
returns the context error. -/
theorem c6_waitAndConsume_witness :
    (0 : Int) < 5 ∧
    (5 : Int) <
      ((RateLimiter.mk (TokenBucket.mk 1 0 60 0) (TokenBucket.mk 10 10 60 0)).TimeUntilAvailable
        1 0).1 ∧
    ((RateLimiter.mk (TokenBucket.mk 1 0 60 0) (TokenBucket.mk 10 10 60 0)).WaitAndConsume 0 1 5
        none =
      { outcome := .waitExceeded, slept := 0
        limiter := RateLimiter.mk (TokenBucket.mk 1 0 60 0) (TokenBucket.mk 10 10 60 0) }) ∧
    (((RateLimiter.mk (TokenBucket.mk 1 0 60 0) (TokenBucket.mk 10 10 60 0)).WaitAndConsume 0 1 0
        none).outcome = .ok) ∧
    ((RateLimiter.mk (TokenBucket.mk 1 0 60 0) (TokenBucket.mk 10 10 60 0)).WaitAndConsume 0 1 0
        none).slept = 66 ∧
    ((RateLimiter.mk (TokenBucket.mk 1 0 60 0) (TokenBucket.mk 10 10 60 0)).WaitAndConsume 0 1 0
        (some 10) =
      { outcome := .ctxCancelled, slept := 10
        limiter := RateLimiter.mk (TokenBucket.mk 1 0 60 0) (TokenBucket.mk 10 10 60 0) }) := by
  refine ⟨by decide, by decide, ?_, ?_, ?_, ?_⟩
  · exact (c6_waitAndConsume (RateLimiter.mk (TokenBucket.mk 1 0 60 0) (TokenBucket.mk 10 10 60 0))
      0 1 5 none).1 (by decide) (by decide)
  · have h := ((c6_waitAndConsume
      (RateLimiter.mk (TokenBucket.mk 1 0 60 0) (TokenBucket.mk 10 10 60 0))
      0 1 5 none).2.2.2 (by intro t ht; cases ht)).2.2
    exact h (by decide)
  · exact ((c6_waitAndConsume
      (RateLimiter.mk (TokenBucket.mk 1 0 60 0) (TokenBucket.mk 10 10 60 0))
      0 1 5 none).2.2.2 (by intro t ht; cases ht)).1.trans (by decide)
  · exact (c6_waitAndConsume (RateLimiter.mk (TokenBucket.mk 1 0 60 0) (TokenBucket.mk 10 10 60 0))
      0 1 5 (some 10)).2.2.1 10 rfl (by decide) (by decide)

/-! ## C3: model resolution -/

/-- Counterexample to C3 as stated: a config that explicitly sets the model
to the package default-model constant `"nano-banana-2"` (a non-empty value)
resolves to the router's configured default `"custom-default"`, not to the
config's explicit model. -/
theorem c3_counterexample :
    ("nano-banana-2" : String) ≠ "" ∧
    Manager.resolveModel
        { modelMappings := [], providers := [], defaultModel := "custom-default",
          rateLimiters := [] }
        (some { model := "nano-banana-2", WaitOnRateLimit := false, MaxWaitDuration := 0 })
      = "custom-default" ∧
    ("custom-default" : String) ≠ "nano-banana-2" :=
  ⟨by decide, rfl, by decide⟩

/-- C3 (amended): the resolved model identifier is the config's explicit
model whenever the config is non-nil, its model field is non-empty, *and*
that value differs from the package default-model constant; when the config
is nil, its model field is empty, or its model field equals the default-model
constant, the router's configured default model is used instead. -/
theorem c3_resolveModel (m : Manager) (c : GenerateConfig) :
    (c.model ≠ "" → c.model ≠ ModelDefault → m.resolveModel (some c) = c.model) ∧
    (c.model = "" → m.resolveModel (some c) = m.defaultModel) ∧
    (c.model = ModelDefault → m.resolveModel (some c) = m.defaultModel) ∧
    m.resolveModel none = m.defaultModel := by
  refine ⟨?_, ?_, ?_, ?_⟩
  · intro h1 h2
    simp [Manager.resolveModel, h1, h2]
  · intro h1
    simp [Manager.resolveModel, h1]
  · intro h1
    by_cases h2 : c.model = ""
    · simp [Manager.resolveModel, h2]
    · simp [Manager.resolveModel, h1, h2, ModelDefault]
  · simp [Manager.resolveModel]

/-- Witness for C3 (amended): an explicit model different from the constant
wins; an empty model falls back to the router's default. -/
theorem c3_resolveModel_witness :
    (("my-model" : String) ≠ "") ∧ (("my-model" : String) ≠ ModelDefault) ∧
    Manager.resolveModel
        { modelMappings := [], providers := [], defaultModel := "custom-default",
          rateLimiters := [] }
        (some { model := "my-model", WaitOnRateLimit := false, MaxWaitDuration := 0 })
      = "my-model" :=
  ⟨by decide, by decide,
   (c3_resolveModel
      { modelMappings := [], providers := [], defaultModel := "custom-default",
        rateLimiters := [] }
      { model := "my-model", WaitOnRateLimit := false, MaxWaitDuration := 0 }).1
     (by decide) (by decide)⟩

/-! ## C2: rate-limit gate in Manager.Generate -/

/-- Looking up the rewritten binding after `updateLimiter`. -/
theorem lookup_updateLimiter (l : List (GoModel × RateLimiter)) (model : GoModel)
    (rl v : RateLimiter) (h : l.lookup model = some rl) :
    (updateLimiter l model v).lookup model = some v := by
  induction l with
  | nil => simp [List.lookup] at h
  | cons p rest ih =>
    obtain ⟨k, w⟩ := p
    by_cases hp : model = k
    · subst hp
      simp [updateLimiter, List.lookup_cons]
    · have hkm : ¬ (k = model) := fun he => hp he.symm
      simp only [List.lookup_cons, beq_false_of_ne hp] at h
      simpa [updateLimiter, List.lookup_cons, beq_false_of_ne hp, hkm] using ih h

/-- `updateLimiter` leaves the other `Manager` fields untouched; lookups of
mappings and providers in the post-check manager agree with the original. -/
theorem checkRateLimit_preserves_tables (m : Manager) (model : GoModel)
    (config : GenerateConfig) (prompt : String) (now : Int) (cancelAfter : Option Int) :
    (m.checkRateLimit model config prompt now cancelAfter).2.modelMappings = m.modelMappings ∧
    (m.checkRateLimit model config prompt now cancelAfter).2.providers = m.providers ∧
    (m.checkRateLimit model config prompt now cancelAfter).2.defaultModel = m.defaultModel := by
  simp only [Manager.checkRateLimit]
  cases h : m.rateLimiters.lookup model with
  | none => simp [h]
  | some rl =>
    by_cases hw : config.WaitOnRateLimit
    · simp [h, hw]
    · simp only [h, hw, Bool.false_eq_true, if_false]
      split <;> exact ⟨rfl, rfl, rfl⟩

/-- C2: with a registered model whose limiter is set and
`WaitOnRateLimit = false`, let `total` be the estimated tokens plus the
fixed 100-token buffer.  If the limiter lacks capacity for `total` (its
composite `HasCapacity` is false), `Generate` returns a rate-limit error
carrying limit kind "tokens", the resolved model identifier, and the
retry-after duration read from the limiter after the failed consume, and the
backend is never invoked.  If the limiter has capacity, the call proceeds to
the backend and the limiter's token remaining drops by exactly `total` from
its refill-adjusted value (and the bound limiter is the consumed one). -/
theorem c2_generate_rate_limit (m : Manager) (config : GenerateConfig) (prompt : String)
    (now : Int) (cancelAfter : Option Int) (rl : RateLimiter) (mapping : ModelMapping)
    (impl : ProviderImpl)
    (hwait : config.WaitOnRateLimit = false)
    (hrl : m.rateLimiters.lookup (m.resolveModel (some config)) = some rl)
    (hmap : m.modelMappings.lookup (m.resolveModel (some config)) = some mapping)
    (himpl : m.providers.lookup mapping.provider = some impl) :
    ((rl.HasCapacity (EstimateTokens prompt + tokenBuffer) now).1 = false →
      (m.Generate prompt (some config) now cancelAfter).backendCalled = false ∧
      (m.Generate prompt (some config) now cancelAfter).error =
        some (.rateLimit
          ((rl.TryConsume (EstimateTokens prompt + tokenBuffer) now).2.TimeUntilAvailable
              (EstimateTokens prompt + tokenBuffer) now).1
          "tokens" (m.resolveModel (some config)))) ∧
    ((rl.HasCapacity (EstimateTokens prompt + tokenBuffer) now).1 = true →
      (m.Generate prompt (some config) now cancelAfter).error = none ∧
      (m.Generate prompt (some config) now cancelAfter).backendCalled = true ∧
      (m.Generate prompt (some config) now cancelAfter).manager.rateLimiters.lookup
          (m.resolveModel (some config))
        = some (rl.TryConsume (EstimateTokens prompt + tokenBuffer) now).2 ∧
      (rl.TryConsume (EstimateTokens prompt + tokenBuffer) now).2.TokensBucket.remaining
        = (rl.TokensBucket.refillIfDue now).remaining - (EstimateTokens prompt + tokenBuffer)) := by
  have hcap := rl_hasCapacity_eq_tryConsume_fst rl (EstimateTokens prompt + tokenBuffer) now
  constructor
  · intro hfail
    have htc : (rl.TryConsume (EstimateTokens prompt + tokenBuffer) now).1 = false := by
      rw [← hcap]; exact hfail
    simp only [Manager.Generate, Option.getD, Manager.checkRateLimit, hrl, hwait,
      Bool.false_eq_true, if_false, htc]
    exact ⟨by trivial, by trivial⟩
  · intro hok
    have htc : (rl.TryConsume (EstimateTokens prompt + tokenBuffer) now).1 = true := by
      rw [← hcap]; exact hok
    have httok : ((rl.TokensBucket.TryConsume (EstimateTokens prompt + tokenBuffer) now).1) = true := by
      simp only [RateLimiter.TryConsume] at htc
      by_cases h : (rl.TokensBucket.TryConsume (EstimateTokens prompt + tokenBuffer) now).1
      · exact h
      · simp [h] at htc
    have hrem := consume_ok_remaining rl.TokensBucket (EstimateTokens prompt + tokenBuffer) now httok
    have htstate : (rl.TryConsume (EstimateTokens prompt + tokenBuffer) now).2.TokensBucket
        = (rl.TokensBucket.Consume (EstimateTokens prompt + tokenBuffer) now).2 := by
      simp only [RateLimiter.TryConsume, TokenBucket.TryConsume] at httok ⊢
      simp only [httok, if_true]
    simp only [Manager.Generate, Option.getD, Manager.checkRateLimit, hrl, hwait,
      Bool.false_eq_true, if_false, htc, if_true, hmap, himpl]
    refine ⟨by trivial, by trivial, ?_, ?_⟩
    · exact lookup_updateLimiter m.rateLimiters (m.resolveModel (some config)) rl
        (rl.TryConsume (EstimateTokens prompt + tokenBuffer) now).2 hrl
    · rw [htstate]
      exact hrem

/-- Witness for C2, mirroring `TestManager_Generate_RateLimit`: prompt
"test prompt" estimates to 7 tokens, plus the 100-token buffer = 107.
Against the 100-token limiter the call fails with a rate-limit error and no
backend call; against the 200-token limiter it reaches the backend and the
token bucket drops by 107. -/
theorem c2_generate_rate_limit_witness :
    cfgTest.WaitOnRateLimit = false ∧
    mgrSmall.rateLimiters.lookup (mgrSmall.resolveModel (some cfgTest)) =
      some (NewLimiter { TokensPerMinute := 100, RequestsPerMinute := 10 } 0) ∧
    mgrSmall.modelMappings.lookup (mgrSmall.resolveModel (some cfgTest)) =
      some { provider := "test-provider", ActualModelName := "test-model-api" } ∧
    ((NewLimiter { TokensPerMinute := 100, RequestsPerMinute := 10 } 0).HasCapacity
      (EstimateTokens "test prompt" + tokenBuffer) 0).1 = false ∧
    ((mgrSmall.Generate "test prompt" (some cfgTest) 0 none).backendCalled = false ∧
      (mgrSmall.Generate "test prompt" (some cfgTest) 0 none).error =
        some (.rateLimit
          (((NewLimiter { TokensPerMinute := 100, RequestsPerMinute := 10 } 0).TryConsume
              (EstimateTokens "test prompt" + tokenBuffer) 0).2.TimeUntilAvailable
              (EstimateTokens "test prompt" + tokenBuffer) 0).1
          "tokens" (mgrSmall.resolveModel (some cfgTest)))) ∧
    ((NewLimiter { TokensPerMinute := 200, RequestsPerMinute := 10 } 0).HasCapacity
      (EstimateTokens "test prompt" + tokenBuffer) 0).1 = true ∧
    ((mgrLarge.Generate "test prompt" (some cfgTest) 0 none).error = none ∧
      (mgrLarge.Generate "test prompt" (some cfgTest) 0 none).backendCalled = true ∧
      (mgrLarge.Generate "test prompt" (some cfgTest) 0 none).manager.rateLimiters.lookup
          (mgrLarge.resolveModel (some cfgTest))
        = some ((NewLimiter { TokensPerMinute := 200, RequestsPerMinute := 10 } 0).TryConsume
            (EstimateTokens "test prompt" + tokenBuffer) 0).2 ∧
      ((NewLimiter { TokensPerMinute := 200, RequestsPerMinute := 10 } 0).TryConsume
          (EstimateTokens "test prompt" + tokenBuffer) 0).2.TokensBucket.remaining
        = ((NewLimiter { TokensPerMinute := 200, RequestsPerMinute := 10 } 0).TokensBucket.refillIfDue
            0).remaining - (EstimateTokens "test prompt" + tokenBuffer)) :=
  ⟨rfl, by decide, by decide, by decide,
   (c2_generate_rate_limit mgrSmall cfgTest "test prompt" 0 none
      (NewLimiter { TokensPerMinute := 100, RequestsPerMinute := 10 } 0)
      { provider := "test-provider", ActualModelName := "test-model-api" }
      mockProvider rfl (by decide) (by decide) rfl).1 (by decide),
   by decide,
   (c2_generate_rate_limit mgrLarge cfgTest "test prompt" 0 none
      (NewLimiter { TokensPerMinute := 200, RequestsPerMinute := 10 } 0)
      { provider := "test-provider", ActualModelName := "test-model-api" }
      mockProvider rfl (by decide) (by decide) rfl).2 (by decide)⟩

/-! ## C7: stateless conversation fallback -/

theorem altHistory_append :
    ∀ (l : List ConversationTurn) (u v : ConversationTurn),
      altHistory l = true → u.Role = "user" → v.Role = "model" →
      altHistory (l ++ [u, v]) = true
  | [], u, v, _, hu, hv => by simp [altHistory, hu, hv]
  | [_], u, v, h, _, _ => by simp [altHistory] at h
  | a :: b :: rest, u, v, h, hu, hv => by
    simp only [altHistory, Bool.and_eq_true, decide_eq_true_eq] at h
    simp only [List.cons_append, altHistory, Bool.and_eq_true, decide_eq_true_eq]
    exact ⟨h.1, altHistory_append rest u v h.2 hu hv⟩

/-- In the stateless fallback with a successful backend call, `Send` is the
record: the call's `.ok` result, history extended by the user and model
turns, exactly one backend call (`EditMultiple` when images are present,
else `Generate`). -/
theorem send_stateless_eq (c : ManagedConversation) (m : Manager) (prompt : String)
    (images : List InputImage) (config : Option GenerateConfig)
    (mapping : ModelMapping) (impl : ProviderImpl) (r : GenerateResult)
    (hconv : c.providerConv = none)
    (hmap : m.modelMappings.lookup (c.resolveSendModel m config) = some mapping)
    (himpl : m.providers.lookup mapping.provider = some impl)
    (hnoconv : impl.supportsConversation = false)
    (hres : (if images.length > 0 then impl.editMultipleRes images prompt
              else impl.generateRes prompt) = .ok r) :
    c.Send m prompt images config =
      { result := .ok r
        conv := { c with history := c.history ++
            [{ Role := "user", Text := prompt
               Images := images.map fun img => { Data := img.Data, MIMEType := img.MIMEType } },
             { Role := "model", Text := r.Text, Images := r.Images }] }
        calls := [if images.length > 0 then BackendCall.editMultiple images prompt
                  else BackendCall.generate prompt] } := by
  by_cases him : images.length > 0
  · have hres1 : impl.editMultipleRes images prompt = .ok r := by simpa [him] using hres
    simp [ManagedConversation.Send, ManagedConversation.sendNewProvider, hmap, hconv, himpl,
      hnoconv, him, hres1]
  · have hres1 : impl.generateRes prompt = .ok r := by simpa [him] using hres
    simp [ManagedConversation.Send, ManagedConversation.sendNewProvider, hmap, hconv, himpl,
      hnoconv, him, hres1]

/-- In the stateless fallback with a failing backend call, `Send` returns
the error, leaves the conversation untouched, and made the one call. -/
theorem send_stateless_err (c : ManagedConversation) (m : Manager) (prompt : String)
    (images : List InputImage) (config : Option GenerateConfig)
    (mapping : ModelMapping) (impl : ProviderImpl) (e : GenError)
    (hconv : c.providerConv = none)
    (hmap : m.modelMappings.lookup (c.resolveSendModel m config) = some mapping)
    (himpl : m.providers.lookup mapping.provider = some impl)
    (hnoconv : impl.supportsConversation = false)
    (hres : (if images.length > 0 then impl.editMultipleRes images prompt
              else impl.generateRes prompt) = .error e) :
    c.Send m prompt images config =
      { result := .error e
        conv := c
        calls := [if images.length > 0 then BackendCall.editMultiple images prompt
                  else BackendCall.generate prompt] } := by
  by_cases him : images.length > 0
  · have hres1 : impl.editMultipleRes images prompt = .error e := by simpa [him] using hres
    simp [ManagedConversation.Send, ManagedConversation.sendNewProvider, hmap, hconv, himpl,
      hnoconv, him, hres1]
  · have hres1 : impl.generateRes prompt = .error e := by simpa [him] using hres
    simp [ManagedConversation.Send, ManagedConversation.sendNewProvider, hmap, hconv, himpl,
      hnoconv, him, hres1]

/-- `sendMany` over inputs that all take the successful stateless path:
it succeeds, adds exactly two history entries per send, preserves the
alternating shape, and leaves the conversation sessionless. -/
theorem sendMany_stateless :
    ∀ (inputs : List (String × List InputImage × Option GenerateConfig))
      (c : ManagedConversation) (m : Manager),
      c.providerConv = none →
      (∀ i ∈ inputs, statelessOK c m i) →
      ∃ cFinal, c.sendMany m inputs = some cFinal ∧
        cFinal.history.length = c.history.length + 2 * inputs.length ∧
        (altHistory c.history = true → altHistory cFinal.history = true) ∧
        cFinal.providerConv = none
  | [], c, m, hconv, _ => by
    refine ⟨c, ?_, ?_, ?_, hconv⟩
    · rfl
    · simp
    · exact fun h => h
  | i :: rest, c, m, hconv, hgood => by
    obtain ⟨mapping, impl, r, hmap, himpl, hnoconv, hres⟩ := hgood i (by simp)
    have hsend := send_stateless_eq c m i.1 i.2.1 i.2.2 mapping impl r hconv hmap himpl
      hnoconv hres
    have hrest : ∀ j ∈ rest, statelessOK (c.Send m i.1 i.2.1 i.2.2).conv m j := by
      intro j hj
      rw [hsend]
      exact hgood j (by simp [hj])
    obtain ⟨cFinal, hrun, hlen, halt, hc⟩ :=
      sendMany_stateless rest (c.Send m i.1 i.2.1 i.2.2).conv m (by rw [hsend]; exact hconv)
        hrest
    refine ⟨cFinal, ?_, ?_, ?_, hc⟩
    · simp only [ManagedConversation.sendMany, hsend]
      rw [hsend] at hrun
      exact hrun
    · rw [hsend] at hlen
      simp only [List.length_append, List.length_cons, List.length_nil] at hlen
      simp only [List.length_cons]
      omega
    · intro halt0
      apply halt
      rw [hsend]
      exact altHistory_append c.history _ _ halt0 rfl rfl

/-- C7 (amended): against a resolved backend without native sessions, every
successful `Send` performs exactly one stateless backend call —
`EditMultiple` if input images are present (not `Edit`; see the
counterexample), else `Generate` — and appends exactly one user turn then
one model turn to local history, leaving the conversation sessionless;
hence `k` successful sends starting from an empty history leave exactly
`2k` entries in alternating user/model order. -/
theorem c7_stateless_sends :
    (∀ (c : ManagedConversation) (m : Manager) (prompt : String) (images : List InputImage)
        (config : Option GenerateConfig) (mapping : ModelMapping) (impl : ProviderImpl)
        (r : GenerateResult),
      c.providerConv = none →
      m.modelMappings.lookup (c.resolveSendModel m config) = some mapping →
      m.providers.lookup mapping.provider = some impl →
      impl.supportsConversation = false →
      (c.Send m prompt images config).result = .ok r →
      ((c.Send m prompt images config).calls =
          [if images.length > 0 then BackendCall.editMultiple images prompt
            else BackendCall.generate prompt] ∧
        (c.Send m prompt images config).conv.history =
          c.history ++
            [{ Role := "user", Text := prompt
               Images := images.map fun img => { Data := img.Data, MIMEType := img.MIMEType } },
             { Role := "model", Text := r.Text, Images := r.Images }] ∧
        (c.Send m prompt images config).conv.providerConv = none)) ∧
    (∀ (inputs : List (String × List InputImage × Option GenerateConfig))
        (c : ManagedConversation) (m : Manager),
      c.providerConv = none →
      c.history = [] →
      (∀ i ∈ inputs, statelessOK c m i) →
      ∃ cFinal, c.sendMany m inputs = some cFinal ∧
        cFinal.history.length = 2 * inputs.length ∧
        altHistory cFinal.history = true) := by
  constructor
  · intro c m prompt images config mapping impl r hconv hmap himpl hnoconv hok
    cases hres : (if images.length > 0 then impl.editMultipleRes images prompt
        else impl.generateRes prompt) with
    | error e =>
      rw [send_stateless_err c m prompt images config mapping impl e hconv hmap himpl
        hnoconv hres] at hok
      cases hok
    | ok r2 =>
      have hsend := send_stateless_eq c m prompt images config mapping impl r2 hconv hmap
        himpl hnoconv hres
      have hr : r2 = r := by
        rw [hsend] at hok
        cases hok
        rfl
      subst hr
      rw [hsend]
      exact ⟨rfl, rfl, hconv⟩
  · intro inputs c m hconv hhist hgood
    obtain ⟨cFinal, hrun, hlen, halt, _⟩ := sendMany_stateless inputs c m hconv hgood
    exact ⟨cFinal, hrun, by rw [hlen, hhist]; simp, halt (by rw [hhist]; rfl)⟩

/-- Counterexample to C7 as stated: a successful stateless `Send` with one
input image performs an `EditMultiple` backend call, not the `Edit` call the
claim names. -/
theorem c7_counterexample :
    (Manager.StartConversation.Send mgrSmall "p" [{ Data := [1], MIMEType := "image/png" }]
        (some cfgTest)).calls =
      [BackendCall.editMultiple [{ Data := [1], MIMEType := "image/png" }] "p"] ∧
    (Manager.StartConversation.Send mgrSmall "p" [{ Data := [1], MIMEType := "image/png" }]
        (some cfgTest)).result = .ok { Images := [], Text := "" } ∧
    [BackendCall.editMultiple [{ Data := [1], MIMEType := "image/png" }] "p"] ≠
      [BackendCall.edit { Data := [1], MIMEType := "image/png" } "p"] :=
  ⟨rfl, rfl, by decide⟩

/-- Witness for C7 (amended): two successful sends (one text-only, one with
an image) through the non-conversational mock provider leave a 4-entry
alternating history. -/
theorem c7_stateless_sends_witness :
    Manager.StartConversation.providerConv = none ∧
    Manager.StartConversation.history = [] ∧
    (∀ i ∈ [(("a", [], some cfgTest) : String × List InputImage × Option GenerateConfig),
        ("b", [{ Data := [1], MIMEType := "image/png" }], some cfgTest)],
      statelessOK Manager.StartConversation mgrSmall i) ∧
    (∃ cFinal,
      Manager.StartConversation.sendMany mgrSmall
          [("a", [], some cfgTest),
           ("b", [{ Data := [1], MIMEType := "image/png" }], some cfgTest)] = some cFinal ∧
      cFinal.history.length =
        2 * ([(("a", [], some cfgTest) : String × List InputImage × Option GenerateConfig),
            ("b", [{ Data := [1], MIMEType := "image/png" }], some cfgTest)]).length ∧
      altHistory cFinal.history = true) := by
  have hgood : ∀ i ∈ [(("a", [], some cfgTest) : String × List InputImage × Option GenerateConfig),
      ("b", [{ Data := [1], MIMEType := "image/png" }], some cfgTest)],
      statelessOK Manager.StartConversation mgrSmall i := by
    intro i hi
    simp only [List.mem_cons, List.not_mem_nil, or_false] at hi
    rcases hi with rfl | rfl
    · exact ⟨{ provider := "test-provider", ActualModelName := "test-model-api" },
        mockProvider, { Images := [], Text := "" }, by decide, rfl, rfl, rfl⟩
    · exact ⟨{ provider := "test-provider", ActualModelName := "test-model-api" },
        mockProvider, { Images := [], Text := "" }, by decide, rfl, rfl, rfl⟩
  exact ⟨rfl, rfl, hgood,
    (c7_stateless_sends).2
      [("a", [], some cfgTest), ("b", [{ Data := [1], MIMEType := "image/png" }], some cfgTest)]
      Manager.StartConversation mgrSmall rfl rfl hgood⟩

/-! ## C8: History returns a shallow copy -/

/-- Counterexample to C8 as stated: `History` returns a fresh top-level
array whose single turn still references byte array 10; a caller writing a
byte through that reference (`returned[0].Images[0].Data[0] = 99`) changes
the observable content of the conversation's internal history, so callers
*can* mutate internal state through the returned value. -/
theorem c8_counterexample :
    (GoHeap.History c8Heap c8Conv).2.turnArrays (GoHeap.History c8Heap c8Conv).1 =
      [{ Role := "user", Text := "p",
         Images := [{ dataRef := 10, MIMEType := "image/png" }] }] ∧
    GoHeap.renderHistory (GoHeap.writeByte (GoHeap.History c8Heap c8Conv).2 10 0 99) c8Conv ≠
      GoHeap.renderHistory (GoHeap.History c8Heap c8Conv).2 c8Conv := by
  exact ⟨by decide, by decide⟩

/-- C8 (amended): `History` makes a defensive copy of the top-level slice
only: the returned array is fresh and holds the same turn values, so the
copy itself leaves the internal history intact and turn-level writes
through the returned slice never reach it; but the turns' image byte data
is shared, so a byte write is observed identically through the returned
value and through the internal history. -/
theorem c8_history_shallow_copy (h : GoHeap.Heap) (c : GoHeap.ConvState)
    (hwf : GoHeap.Heap.WF h c) (i : Nat) (t : GoHeap.TurnVal) (bref j v : Nat) :
    (GoHeap.History h c).2.turnArrays (GoHeap.History h c).1 = h.turnArrays c.historyRef ∧
    GoHeap.renderHistory (GoHeap.History h c).2 c = GoHeap.renderHistory h c ∧
    GoHeap.renderHistory
        (GoHeap.writeTurn (GoHeap.History h c).2 (GoHeap.History h c).1 i t) c =
      GoHeap.renderHistory (GoHeap.History h c).2 c ∧
    GoHeap.renderSlice (GoHeap.writeByte (GoHeap.History h c).2 bref j v)
        (GoHeap.History h c).1 =
      GoHeap.renderHistory (GoHeap.writeByte (GoHeap.History h c).2 bref j v) c := by
  have hne : ¬ (c.historyRef = h.nextId) := by
    have := hwf
    unfold GoHeap.Heap.WF at this
    omega
  refine ⟨?_, ?_, ?_, ?_⟩
  · simp [GoHeap.History]
  · simp [GoHeap.History, GoHeap.renderHistory, GoHeap.renderSlice, GoHeap.renderTurn, hne]
  · simp [GoHeap.History, GoHeap.writeTurn, GoHeap.renderHistory, GoHeap.renderSlice,
      GoHeap.renderTurn, hne]
  · simp [GoHeap.History, GoHeap.writeByte, GoHeap.renderHistory, GoHeap.renderSlice,
      GoHeap.renderTurn, hne]

/-- Witness for C8 (amended) on the concrete heap: well-formedness holds and
all four conclusions hold for a turn-level overwrite at index 0 and a byte
write of 99 into array 10. -/
theorem c8_history_shallow_copy_witness :
    GoHeap.Heap.WF c8Heap c8Conv ∧
    ((GoHeap.History c8Heap c8Conv).2.turnArrays (GoHeap.History c8Heap c8Conv).1 =
        c8Heap.turnArrays c8Conv.historyRef ∧
      GoHeap.renderHistory (GoHeap.History c8Heap c8Conv).2 c8Conv =
        GoHeap.renderHistory c8Heap c8Conv ∧
      GoHeap.renderHistory
          (GoHeap.writeTurn (GoHeap.History c8Heap c8Conv).2 (GoHeap.History c8Heap c8Conv).1 0
            { Role := "x", Text := "y", Images := [] }) c8Conv =
        GoHeap.renderHistory (GoHeap.History c8Heap c8Conv).2 c8Conv ∧
      GoHeap.renderSlice (GoHeap.writeByte (GoHeap.History c8Heap c8Conv).2 10 0 99)
          (GoHeap.History c8Heap c8Conv).1 =
        GoHeap.renderHistory (GoHeap.writeByte (GoHeap.History c8Heap c8Conv).2 10 0 99)
          c8Conv) :=
  ⟨by unfold GoHeap.Heap.WF; decide,
   c8_history_shallow_copy c8Heap c8Conv (by unfold GoHeap.Heap.WF; decide) 0
     { Role := "x", Text := "y", Images := [] } 10 0 99⟩

section SanityChecks

example :
    (NewTokenBucket 10 10 timeMinute 0).Consume 5 0 =
      (true, NewTokenBucket 10 5 timeMinute 0) := by decide

example : ((NewTokenBucket 10 5 timeMinute 0).Consume 6 0).1 = false := by decide

example : ((NewTokenBucket 10 0 10000000 0).Consume 1 0).1 = false := by decide

example : ((NewTokenBucket 10 0 10000000 0).Consume 1 20000000).1 = true := by decide

end SanityChecks
